import Mathlib

/-!
A shallow embedding of the `GazeboRosDepthCamera` plugin
(`gazebo_plugins/src/gazebo_ros_depth_camera.cpp`) and proofs about it.

Modelling conventions:
* `double`/`float` sample values are modelled by `ℚ`; the trigonometric
  library calls `tan` and `atan2` are abstract parameters (`TrigOps`),
  since the claims under scrutiny concern the structure of the
  computation, not trigonometric identities.
* The floating-point "not-a-number" sentinel written into invalid points
  is modelled by `Option ℚ`: `none` is the sentinel, `some q` a finite value.
* Connection counters are C++ `int`s, modelled by `ℤ` (they are
  decremented without a lower guard in the source).
* `parentSensor->SetActive(b)` calls are recorded as explicit
  `SensorReq` events, and the sensor's active flag is tracked in the state.
* Buffers read through raw pointers are modelled as total functions
  `ℕ → ℚ`; the color image `std::vector<uint8_t>` as a `List ℕ`.
-/

namespace GazeboRosDepthCamera

/-! Generic lemmas about row-enumerated grids.

The converters traverse a `rows × cols` pixel grid with nested loops and
append one element per pixel; such a traversal is a `flatMap` of ranges. -/

/-- A nested loop (`outer` iterations outside, `inner` inside) appending
`f outer inner` produces `outer * inner` elements. -/
theorem length_gridList {α : Type} (outer inner : ℕ) (f : ℕ → ℕ → α) :
    ((List.range outer).flatMap fun j => (List.range inner).map (f j)).length
      = outer * inner := by
  induction outer with
  | zero => simp
  | succ n ih =>
      rw [List.range_succ, List.flatMap_append]
      simp [ih, Nat.succ_mul]

/-- Position of pixel `(j, i)` in the flattened grid is `j * inner + i`. -/
theorem index_lt_grid {inner i j outer : ℕ} (hi : i < inner) (hj : j < outer) :
    j * inner + i < outer * inner := by
  have h1 : j + 1 ≤ outer := hj
  calc j * inner + i < j * inner + inner := by omega
    _ = (j + 1) * inner := by ring
    _ ≤ outer * inner := Nat.mul_le_mul_right inner h1

/-- The element at position `j * inner + i` of the flattened grid is
`f j i`. -/
theorem getElem?_gridList {α : Type} {outer inner i j : ℕ} (f : ℕ → ℕ → α)
    (hj : j < outer) (hi : i < inner) :
    ((List.range outer).flatMap fun j => (List.range inner).map (f j))[j * inner + i]?
      = some (f j i) := by
  induction outer with
  | zero => omega
  | succ n ih =>
      rw [List.range_succ, List.flatMap_append]
      rcases Nat.lt_or_ge j n with hjn | hjn
      · rw [List.getElem?_append_left]
        · exact ih hjn
        · rw [length_gridList]
          exact index_lt_grid hi hjn
      · have hj' : j = n := by omega
        subst hj'
        rw [List.getElem?_append_right (by rw [length_gridList]; omega)]
        rw [length_gridList]
        simp only [List.flatMap_cons, List.flatMap_nil, List.append_nil]
        have : j * inner + i - j * inner = i := by omega
        rw [this, List.getElem?_map, List.getElem?_range hi]
        rfl

/-! Embedding of `FillPointCloudHelper` (source lines 361-440).

The helper converts a row-major depth buffer into a point list.  The C++
reads `toCopyFrom[index++]` in a `j`-outer / `i`-inner nested loop, so the
depth sample used at pixel `(i, j)` is `data (j * cols + i)`. -/

/-- The library trigonometric functions used by the converter, kept
abstract: `tan x` models `tan(x)`, `atan2 y x` models `atan2(y, x)`. -/
structure TrigOps where
  tan : ℚ → ℚ
  atan2 : ℚ → ℚ → ℚ

/-- Focal length `fl = ((double)this->width) / (2.0 * tan(hfov/2.0))` (line 375). -/
def focalLength (ops : TrigOps) (width : ℕ) (hfov : ℚ) : ℚ :=
  (width : ℚ) / (2 * ops.tan (hfov / 2))

/-- Pitch angle `pAngle` for row `j` (lines 381-382): `atan2(j - 0.5*(rows-1), fl)`
when `rows > 1`, else `0`. -/
def pAngleOf (ops : TrigOps) (rows : ℕ) (fl : ℚ) (j : ℕ) : ℚ :=
  if 1 < rows then ops.atan2 ((j : ℚ) - 0.5 * ((rows - 1 : ℕ) : ℚ)) fl else 0

/-- Yaw angle `yAngle` for column `i` (lines 387-388): `atan2(i - 0.5*(cols-1), fl)`
when `cols > 1`, else `0`. -/
def yAngleOf (ops : TrigOps) (cols : ℕ) (fl : ℚ) (i : ℕ) : ℚ :=
  if 1 < cols then ops.atan2 ((i : ℚ) - 0.5 * ((cols - 1 : ℕ) : ℚ)) fl else 0

/-- A `pcl::PointXYZRGB` as filled by the helper.  Coordinates are
`Option ℚ` (`none` = the quiet-NaN sentinel); colors are bytes. -/
structure PointXYZRGB where
  x : Option ℚ
  y : Option ℚ
  z : Option ℚ
  r : ℕ
  g : ℕ
  b : ℕ
deriving DecidableEq, Repr

/-- Color assignment for pixel `(i, j)` (lines 409-431): full-color image
of `rows*cols*3` bytes, else mono image of `rows*cols` bytes, else black. -/
def pointColor (rows cols : ℕ) (img : List ℕ) (i j : ℕ) : ℕ × ℕ × ℕ :=
  if img.length = rows * cols * 3 then
    (img.getD (i * 3 + j * cols * 3 + 0) 0,
     img.getD (i * 3 + j * cols * 3 + 1) 0,
     img.getD (i * 3 + j * cols * 3 + 2) 0)
  else if img.length = rows * cols then
    (img.getD (i + j * cols) 0, img.getD (i + j * cols) 0, img.getD (i + j * cols) 0)
  else
    (0, 0, 0)

/-- The point pushed for pixel `(i, j)` with depth sample `depth`
(lines 390-433): `x = depth*tan(yAngle)`, `y = depth*tan(pAngle)`,
`z = depth` when `depth > cutoff`, else all three are the NaN sentinel. -/
def mkPcPoint (ops : TrigOps) (cutoff : ℚ) (rows cols : ℕ) (fl : ℚ)
    (img : List ℕ) (depth : ℚ) (i j : ℕ) : PointXYZRGB :=
  let pAngle := pAngleOf ops rows fl j
  let yAngle := yAngleOf ops cols fl i
  let xyz : Option ℚ × Option ℚ × Option ℚ :=
    if cutoff < depth then
      (some (depth * ops.tan yAngle), some (depth * ops.tan pAngle), some depth)
    else
      (none, none, none)
  let rgb := pointColor rows cols img i j
  { x := xyz.1, y := xyz.2.1, z := xyz.2.2, r := rgb.1, g := rgb.2.1, b := rgb.2.2 }

/-- The point list built by `FillPointCloudHelper`: `j` outer over rows,
`i` inner over cols, one `push_back` per pixel (lines 378-435).  `width`
is the member `this->width` used for the focal length. -/
def fillPointCloudPoints (ops : TrigOps) (cutoff : ℚ) (width : ℕ) (hfov : ℚ)
    (rows cols : ℕ) (data : ℕ → ℚ) (img : List ℕ) : List PointXYZRGB :=
  (List.range rows).flatMap fun j =>
    (List.range cols).map fun i =>
      mkPcPoint ops cutoff rows cols (focalLength ops width hfov) img
        (data (j * cols + i)) i j

/-- Final value of `point_cloud.is_dense`: initialized `true` (line 369)
and cleared whenever a pixel falls in the unseeable range (line 406). -/
def fillPointCloudDense (cutoff : ℚ) (rows cols : ℕ) (data : ℕ → ℚ) : Bool :=
  (List.range rows).all fun j =>
    (List.range cols).all fun i => decide (cutoff < data (j * cols + i))

/-! Embedding of `FillDepthImageHelper` (source lines 443-479).

To capture the order of the imperative statements (metadata assignments
first, then the pixel loop) the helper is embedded as an event trace
replayed onto a message state.  A float cell is `Option ℚ`
(`none` = quiet NaN); `resize` zero-fills, so cells become `some 0`. -/

/-- One imperative step of `FillDepthImageHelper`. -/
inductive ImgEvent where
  | setEncoding (s : String)
  | setHeight (n : ℕ)
  | setWidth (n : ℕ)
  | setStep (n : ℕ)
  | resizeData (n : ℕ)
  | setBigendian (n : ℕ)
  | writeCell (pos : ℕ) (v : Option ℚ)
deriving DecidableEq, Repr

/-- Whether an event is a buffer write (as opposed to metadata setup). -/
def ImgEvent.isWrite : ImgEvent → Bool
  | .writeCell _ _ => true
  | _ => false

/-- A `sensor_msgs::Image`; `dataBytes` is the byte length given to
`data.resize`, `cells` the buffer viewed through the `float*` cursor. -/
structure ImageMsg where
  encoding : String
  height : ℕ
  width : ℕ
  step : ℕ
  dataBytes : ℕ
  cells : ℕ → Option ℚ
  is_bigendian : ℕ

/-- Replay one event onto the message. -/
def applyImgEvent (m : ImageMsg) : ImgEvent → ImageMsg
  | .setEncoding s => { m with encoding := s }
  | .setHeight n => { m with height := n }
  | .setWidth n => { m with width := n }
  | .setStep n => { m with step := n }
  | .resizeData n => { m with dataBytes := n, cells := fun _ => some 0 }
  | .setBigendian n => { m with is_bigendian := n }
  | .writeCell p v => { m with cells := Function.update m.cells p v }

/-- Value of `sizeof(float)` on the target platform. -/
def sizeofFloat : ℕ := 4

/-- The metadata assignments of lines 448-453, in source order. -/
def depthImageMetaTrace (rows cols : ℕ) : List ImgEvent :=
  [.setEncoding "32FC1", .setHeight rows, .setWidth cols,
   .setStep (sizeofFloat * cols), .resizeData (rows * cols * sizeofFloat),
   .setBigendian 0]

/-- The pixel loop of lines 462-477: `j` outer, `i` inner, reading
`toCopyFrom[index++]` (so sample `src (j*cols+i)`) and writing
`dest[i + j*cols]`, the depth when `depth > cutoff`, else NaN. -/
def depthImageWriteTrace (cutoff : ℚ) (rows cols : ℕ) (src : ℕ → ℚ) : List ImgEvent :=
  (List.range rows).flatMap fun j =>
    (List.range cols).map fun i =>
      .writeCell (i + j * cols)
        (if cutoff < src (j * cols + i) then some (src (j * cols + i)) else none)

/-- Full statement trace of `FillDepthImageHelper`. -/
def fillDepthImageTrace (cutoff : ℚ) (rows cols : ℕ) (src : ℕ → ℚ) : List ImgEvent :=
  depthImageMetaTrace rows cols ++ depthImageWriteTrace cutoff rows cols src

/-- The helper `FillDepthImageHelper` as a function on the message state. -/
def fillDepthImageHelper (m : ImageMsg) (cutoff : ℚ) (rows cols : ℕ)
    (src : ℕ → ℚ) : ImageMsg :=
  (fillDepthImageTrace cutoff rows cols src).foldl applyImgEvent m

/-- Write events do not touch metadata fields. -/
theorem foldl_writes_meta (l : List ImgEvent) (m : ImageMsg)
    (hw : ∀ e ∈ l, e.isWrite = true) :
    (l.foldl applyImgEvent m).encoding = m.encoding ∧
    (l.foldl applyImgEvent m).height = m.height ∧
    (l.foldl applyImgEvent m).width = m.width ∧
    (l.foldl applyImgEvent m).step = m.step ∧
    (l.foldl applyImgEvent m).dataBytes = m.dataBytes ∧
    (l.foldl applyImgEvent m).is_bigendian = m.is_bigendian := by
  induction l generalizing m with
  | nil => simp
  | cons e tl ih =>
      have he : e.isWrite = true := hw e (by simp)
      have htl : ∀ e ∈ tl, e.isWrite = true := fun e h => hw e (by simp [h])
      cases e with
      | writeCell p v =>
          simpa [applyImgEvent] using ih { m with cells := Function.update m.cells p v } htl
      | setEncoding s => simp [ImgEvent.isWrite] at he
      | setHeight n => simp [ImgEvent.isWrite] at he
      | setWidth n => simp [ImgEvent.isWrite] at he
      | setStep n => simp [ImgEvent.isWrite] at he
      | resizeData n => simp [ImgEvent.isWrite] at he
      | setBigendian n => simp [ImgEvent.isWrite] at he

/-- Replaying one run of writes at offsets `base, base+1, …`: the cell at
`i + base`, `i < n`, receives `v i`. -/
theorem row_fold_cells_hit (v : ℕ → Option ℚ) (base n i : ℕ) (m : ImageMsg)
    (hi : i < n) :
    ((((List.range n).map fun i => ImgEvent.writeCell (i + base) (v i)).foldl
        applyImgEvent m).cells) (i + base) = v i := by
  induction n generalizing m with
  | zero => omega
  | succ k ih =>
      rw [List.range_succ, List.map_append, List.foldl_append]
      rcases Nat.lt_or_ge i k with hik | hik
      · simp only [List.map_cons, List.map_nil, List.foldl_cons, List.foldl_nil,
          applyImgEvent]
        rw [Function.update_noteq (by omega)]
        exact ih _ hik
      · have : i = k := by omega
        subst this
        simp [applyImgEvent]

/-- Replaying one run of writes leaves cells outside it unchanged. -/
theorem row_fold_cells_miss (v : ℕ → Option ℚ) (base n p : ℕ) (m : ImageMsg)
    (hp : ∀ i, i < n → p ≠ i + base) :
    ((((List.range n).map fun i => ImgEvent.writeCell (i + base) (v i)).foldl
        applyImgEvent m).cells) p = m.cells p := by
  induction n generalizing m with
  | zero => simp
  | succ k ih =>
      rw [List.range_succ, List.map_append, List.foldl_append]
      simp only [List.map_cons, List.map_nil, List.foldl_cons, List.foldl_nil,
        applyImgEvent]
      rw [Function.update_noteq (hp k (by omega))]
      exact ih _ fun i hik => hp i (by omega)

/-- After the whole write loop, the cell at `i + j*cols` holds the value
written for pixel `(i, j)`. -/
theorem grid_fold_cells_hit (g : ℕ → ℕ → Option ℚ) (rows cols i j : ℕ) (m : ImageMsg)
    (hi : i < cols) (hj : j < rows) :
    ((((List.range rows).flatMap fun j =>
        (List.range cols).map fun i => ImgEvent.writeCell (i + j * cols) (g j i)).foldl
          applyImgEvent m).cells) (i + j * cols) = g j i := by
  induction rows generalizing m with
  | zero => omega
  | succ n ih =>
      rw [List.range_succ, List.flatMap_append, List.foldl_append]
      simp only [List.flatMap_cons, List.flatMap_nil, List.append_nil]
      rcases Nat.lt_or_ge j n with hjn | hjn
      · rw [row_fold_cells_miss (fun i => g n i) (n * cols) cols _ _ ?_]
        · exact ih _ hjn
        · intro i0 hi0 heq
          have h1 : j * cols + i < n * cols := index_lt_grid hi hjn
          have h2 : i + j * cols = j * cols + i := Nat.add_comm _ _
          rw [h2] at heq
          omega
      · have : j = n := by omega
        subst this
        exact row_fold_cells_hit (fun i => g j i) (j * cols) cols i _ hi

/-! Embedding of the `OnNewRGBPointCloud` point assembly (source lines 254-274).

The colored-point callback walks the interleaved buffer with `i` as the
OUTER loop (columns) and `j` inner (rows), computing
`index = j*width + i` and reading four floats at `4*index`. -/

/-- A point as read from the interleaved color+depth buffer. -/
structure RGBPoint where
  x : ℚ
  y : ℚ
  z : ℚ
  rgb : ℚ
deriving DecidableEq, Repr

/-- The four floats read for the pixel with flat index `index`
(lines 258-263). -/
def mkRGBPoint (pcd : ℕ → ℚ) (index : ℕ) : RGBPoint :=
  { x := pcd (4 * index), y := pcd (4 * index + 1),
    z := pcd (4 * index + 2), rgb := pcd (4 * index + 3) }

/-- The point list pushed by `OnNewRGBPointCloud`: `i` outer over the
width, `j` inner over the height, `index = j*width + i`. -/
def rgbPointCloudPoints (width height : ℕ) (pcd : ℕ → ℚ) : List RGBPoint :=
  (List.range width).flatMap fun i =>
    (List.range height).map fun j => mkRGBPoint pcd (j * width + i)

/-! Connection counters and the activation gate
(source lines 46-52, 137-217)

Counters are C++ `int`s (`ℤ` here, no lower clamp).  `SetActive` calls
are logged as `SensorReq` events and mirrored into the `active` flag;
publishes are logged as `Pub` events. -/

/-- A `parentSensor->SetActive(_)` request. -/
inductive SensorReq where
  | activate
  | deactivate
deriving DecidableEq, Repr

/-- A message publication performed inside `OnNewDepthFrame`. -/
inductive Pub where
  | pointCloud
  | depthImage
deriving DecidableEq, Repr

/-- The plugin state relevant to connection tracking and activation. -/
structure CamState where
  point_cloud_connect_count_ : ℤ
  image_connect_count_ : ℤ
  depth_image_connect_count_ : ℤ
  depth_info_connect_count_ : ℤ
  active : Bool
  initialized_ : Bool
  advertised_ : Bool
  width_ : ℤ
  height_ : ℤ
deriving DecidableEq, Repr

/-- Handler `PointCloudConnect` (lines 137-142): increment the point-cloud and
image counters, then `SetActive(true)`. -/
def PointCloudConnect (s : CamState) : CamState × List SensorReq :=
  let s := { s with
    point_cloud_connect_count_ := s.point_cloud_connect_count_ + 1,
    image_connect_count_ := s.image_connect_count_ + 1 }
  ({ s with active := true }, [.activate])

/-- Handler `PointCloudDisconnect` (lines 145-151): decrement both counters; if
the point-cloud counter is now `≤ 0`, `SetActive(false)` — with no look at
the other channels. -/
def PointCloudDisconnect (s : CamState) : CamState × List SensorReq :=
  let s := { s with
    point_cloud_connect_count_ := s.point_cloud_connect_count_ - 1,
    image_connect_count_ := s.image_connect_count_ - 1 }
  if s.point_cloud_connect_count_ ≤ 0 then
    ({ s with active := false }, [.deactivate])
  else
    (s, [])

/-- Handler `DepthImageConnect` (lines 155-159): increment the depth-image
counter, then `SetActive(true)`. -/
def DepthImageConnect (s : CamState) : CamState × List SensorReq :=
  let s := { s with depth_image_connect_count_ := s.depth_image_connect_count_ + 1 }
  ({ s with active := true }, [.activate])

/-- Handler `DepthImageDisconnect` (lines 162-165): decrement only; no
`SetActive` call at all. -/
def DepthImageDisconnect (s : CamState) : CamState × List SensorReq :=
  ({ s with depth_image_connect_count_ := s.depth_image_connect_count_ - 1 }, [])

/-- Handler `DepthInfoConnect` (lines 169-172). -/
def DepthInfoConnect (s : CamState) : CamState × List SensorReq :=
  ({ s with depth_info_connect_count_ := s.depth_info_connect_count_ + 1 }, [])

/-- Handler `DepthInfoDisconnect` (lines 175-178). -/
def DepthInfoDisconnect (s : CamState) : CamState × List SensorReq :=
  ({ s with depth_info_connect_count_ := s.depth_info_connect_count_ - 1 }, [])

/-- Result of one `OnNewDepthFrame` callback. -/
structure FrameResult where
  state : CamState
  requests : List SensorReq
  pubs : List Pub
deriving DecidableEq, Repr

/-- Callback `OnNewDepthFrame` (lines 182-217): guard on initialization and
dimensions; lazily advertise; if active, deactivate when every counter is
`≤ 0`, else convert and publish for each positive channel; if inactive,
`SetActive(true)` when `point_cloud_connect_count_ > 0` or
`depth_image_connect_count_ <= 0` (the condition as written in the
source). -/
def OnNewDepthFrame (s : CamState) : FrameResult :=
  if ¬s.initialized_ ∨ s.height_ ≤ 0 ∨ s.width_ ≤ 0 then
    { state := s, requests := [], pubs := [] }
  else
    let s := { s with advertised_ := true }
    if s.active then
      if s.point_cloud_connect_count_ ≤ 0 ∧ s.depth_image_connect_count_ ≤ 0 ∧
          s.image_connect_count_ ≤ 0 then
        { state := { s with active := false }, requests := [.deactivate], pubs := [] }
      else
        { state := s, requests := [],
          pubs :=
            (if 0 < s.point_cloud_connect_count_ then [Pub.pointCloud] else []) ++
            (if 0 < s.depth_image_connect_count_ then [Pub.depthImage] else []) }
    else
      if 0 < s.point_cloud_connect_count_ ∨ s.depth_image_connect_count_ ≤ 0 then
        { state := { s with active := true }, requests := [.activate], pubs := [] }
      else
        { state := s, requests := [], pubs := [] }

/-- A subscribe or unsubscribe callback on one of the three advertised
channels (lines 107-129 wire these to the connect/disconnect handlers). -/
inductive SubEvent where
  | pcSub
  | pcUnsub
  | diSub
  | diUnsub
  | infoSub
  | infoUnsub
deriving DecidableEq, Repr

/-- Dispatch one subscribe/unsubscribe callback. -/
def stepSub (s : CamState) (e : SubEvent) : CamState :=
  match e with
  | .pcSub => (PointCloudConnect s).1
  | .pcUnsub => (PointCloudDisconnect s).1
  | .diSub => (DepthImageConnect s).1
  | .diUnsub => (DepthImageDisconnect s).1
  | .infoSub => (DepthInfoConnect s).1
  | .infoUnsub => (DepthInfoDisconnect s).1

/-- Run a sequence of subscribe/unsubscribe callbacks. -/
def runSub (s : CamState) (l : List SubEvent) : CamState := l.foldl stepSub s

/-- The state after the constructor and a successful `Load` (lines 46-52):
counters zero, sensor not yet activated, plugin initialized with positive
image dimensions, outputs not yet advertised. -/
def initState : CamState :=
  { point_cloud_connect_count_ := 0, image_connect_count_ := 0,
    depth_image_connect_count_ := 0, depth_info_connect_count_ := 0,
    active := false, initialized_ := true, advertised_ := false,
    width_ := 1, height_ := 1 }

/-- Effect of one callback on the point-cloud counter. -/
theorem stepSub_pc (s : CamState) (e : SubEvent) :
    (stepSub s e).point_cloud_connect_count_ =
      s.point_cloud_connect_count_ + (if e = .pcSub then 1 else 0)
        - (if e = .pcUnsub then 1 else 0) := by
  cases e
  case pcSub => simp [stepSub, PointCloudConnect]
  case pcUnsub =>
      simp only [stepSub, PointCloudDisconnect]
      split_ifs <;> simp_all
  case diSub => simp [stepSub, DepthImageConnect]
  case diUnsub => simp [stepSub, DepthImageDisconnect]
  case infoSub => simp [stepSub, DepthInfoConnect]
  case infoUnsub => simp [stepSub, DepthInfoDisconnect]

/-- Effect of one callback on the depth-image counter. -/
theorem stepSub_di (s : CamState) (e : SubEvent) :
    (stepSub s e).depth_image_connect_count_ =
      s.depth_image_connect_count_ + (if e = .diSub then 1 else 0)
        - (if e = .diUnsub then 1 else 0) := by
  cases e
  case pcSub => simp [stepSub, PointCloudConnect]
  case pcUnsub =>
      simp only [stepSub, PointCloudDisconnect]
      split_ifs <;> simp_all
  case diSub => simp [stepSub, DepthImageConnect]
  case diUnsub => simp [stepSub, DepthImageDisconnect]
  case infoSub => simp [stepSub, DepthInfoConnect]
  case infoUnsub => simp [stepSub, DepthInfoDisconnect]

/-- Effect of one callback on the depth-info counter. -/
theorem stepSub_info (s : CamState) (e : SubEvent) :
    (stepSub s e).depth_info_connect_count_ =
      s.depth_info_connect_count_ + (if e = .infoSub then 1 else 0)
        - (if e = .infoUnsub then 1 else 0) := by
  cases e
  case pcSub => simp [stepSub, PointCloudConnect]
  case pcUnsub =>
      simp only [stepSub, PointCloudDisconnect]
      split_ifs <;> simp_all
  case diSub => simp [stepSub, DepthImageConnect]
  case diUnsub => simp [stepSub, DepthImageDisconnect]
  case infoSub => simp [stepSub, DepthInfoConnect]
  case infoUnsub => simp [stepSub, DepthInfoDisconnect]

/-- Exact counter values after a run: each counter is its initial value
plus the subscribe count minus the unsubscribe count of its channel. -/
theorem runSub_counts (l : List SubEvent) (s : CamState) :
    (runSub s l).point_cloud_connect_count_
        = s.point_cloud_connect_count_ + l.count .pcSub - l.count .pcUnsub ∧
    (runSub s l).depth_image_connect_count_
        = s.depth_image_connect_count_ + l.count .diSub - l.count .diUnsub ∧
    (runSub s l).depth_info_connect_count_
        = s.depth_info_connect_count_ + l.count .infoSub - l.count .infoUnsub := by
  induction l generalizing s with
  | nil => simp [runSub]
  | cons e tl ih =>
      obtain ⟨h1, h2, h3⟩ := ih (stepSub s e)
      simp only [runSub, List.foldl_cons] at h1 h2 h3 ⊢
      rw [h1, h2, h3, stepSub_pc, stepSub_di, stepSub_info]
      refine ⟨?_, ?_, ?_⟩ <;>
        cases e <;>
        simp [List.count_cons] <;>
        ring

/-- Per-channel balance check for one sequence: no more unsubscribes than
subscribes. -/
def countersOk (l : List SubEvent) : Bool :=
  decide (l.count .pcUnsub ≤ l.count .pcSub) &&
  decide (l.count .diUnsub ≤ l.count .diSub) &&
  decide (l.count .infoUnsub ≤ l.count .infoSub)

/-- Balance check for every prefix of the sequence. -/
def allPrefixesOk (l : List SubEvent) : Bool :=
  (List.range (l.length + 1)).all fun n => countersOk (l.take n)

/-! Embedding of `PublishCameraInfo` (source lines 481-496). -/

/-- The state read and written by `PublishCameraInfo`. -/
structure CameraInfoState where
  depth_info_connect_count_ : ℤ
  last_depth_image_camera_info_update_time_ : ℚ
  update_period_ : ℚ
deriving DecidableEq, Repr

/-- What one `PublishCameraInfo` call did. -/
structure CameraInfoResult where
  state : CameraInfoState
  genericPublished : Bool
  depthPublished : Bool
deriving DecidableEq, Repr

/-- Method `PublishCameraInfo` (lines 481-496): always delegate the generic
camera info to `GazeboRosCameraUtils::PublishCameraInfo()`; the
depth-specific info is published only when the depth-info counter is
positive and `cur_time - last >= update_period_`, in which case the
last-publish time becomes `cur_time`. -/
def PublishCameraInfo (s : CameraInfoState) (cur_time : ℚ) : CameraInfoResult :=
  if 0 < s.depth_info_connect_count_ then
    if s.update_period_ ≤ cur_time - s.last_depth_image_camera_info_update_time_ then
      { state := { s with last_depth_image_camera_info_update_time_ := cur_time },
        genericPublished := true, depthPublished := true }
    else
      { state := s, genericPublished := true, depthPublished := false }
  else
    { state := s, genericPublished := true, depthPublished := false }

/-! Claim theorems. -/

/-- Concrete trigonometric stand-ins used to instantiate witnesses. -/
def probeOps : TrigOps := { tan := fun x => x + 1, atan2 := fun y x => 2 * y + x }

/-- Concrete depth buffer used to instantiate witnesses. -/
def probeData : ℕ → ℚ := fun k => (k : ℚ) + 1

/-- C1: in `FillPointCloudHelper`, with focal length
`fl = W/(2·tan(hfov/2))` (`focalLength`), yaw `yAngleOf` (zero when
`W = 1`) and pitch `pAngleOf` (zero when `H = 1`), the point emitted for
pixel `(i, j)` has `x = d·tan(yAngle)`, `y = d·tan(pAngle)`, `z = d` when
the depth sample `d` satisfies `d > c` strictly; otherwise all three
coordinates are the NaN sentinel and the output's dense flag is cleared. -/
theorem pointCloud_pixel_conversion (ops : TrigOps) (cutoff hfov : ℚ) (W H : ℕ)
    (data : ℕ → ℚ) (img : List ℕ) (i j : ℕ) (hi : i < W) (hj : j < H) :
    (cutoff < data (j * W + i) →
      (fillPointCloudPoints ops cutoff W hfov H W data img)[j * W + i]? = some
        { x := some (data (j * W + i) *
              ops.tan (yAngleOf ops W (focalLength ops W hfov) i)),
          y := some (data (j * W + i) *
              ops.tan (pAngleOf ops H (focalLength ops W hfov) j)),
          z := some (data (j * W + i)),
          r := (pointColor H W img i j).1,
          g := (pointColor H W img i j).2.1,
          b := (pointColor H W img i j).2.2 }) ∧
    (¬ cutoff < data (j * W + i) →
      (fillPointCloudPoints ops cutoff W hfov H W data img)[j * W + i]? = some
        { x := none, y := none, z := none,
          r := (pointColor H W img i j).1,
          g := (pointColor H W img i j).2.1,
          b := (pointColor H W img i j).2.2 } ∧
      fillPointCloudDense cutoff H W data = false) := by
  have hpts : (fillPointCloudPoints ops cutoff W hfov H W data img)[j * W + i]? =
      some (mkPcPoint ops cutoff H W (focalLength ops W hfov) img
        (data (j * W + i)) i j) :=
    getElem?_gridList _ hj hi
  constructor
  · intro h
    rw [hpts]
    simp [mkPcPoint, h]
  · intro h
    refine ⟨?_, ?_⟩
    · rw [hpts]
      simp [mkPcPoint, h]
    · have hne : ¬ fillPointCloudDense cutoff H W data = true := by
        intro htrue
        rw [fillPointCloudDense, List.all_eq_true] at htrue
        have h1 := htrue j (List.mem_range.mpr hj)
        rw [List.all_eq_true] at h1
        have h2 := h1 i (List.mem_range.mpr hi)
        exact h (of_decide_eq_true h2)
      exact Bool.not_eq_true _ ▸ hne

/-- Witness for C1 at `W = H = 2`, `i = 1`, `j = 0`, zero cutoff. -/
theorem pointCloud_pixel_conversion_witness :
    ((1 : ℕ) < 2 ∧ (0 : ℕ) < 2) ∧
    (((0 : ℚ) < probeData (0 * 2 + 1) →
      (fillPointCloudPoints probeOps 0 2 3 2 2 probeData [])[0 * 2 + 1]? = some
        { x := some (probeData (0 * 2 + 1) *
              probeOps.tan (yAngleOf probeOps 2 (focalLength probeOps 2 3) 1)),
          y := some (probeData (0 * 2 + 1) *
              probeOps.tan (pAngleOf probeOps 2 (focalLength probeOps 2 3) 0)),
          z := some (probeData (0 * 2 + 1)),
          r := (pointColor 2 2 [] 1 0).1,
          g := (pointColor 2 2 [] 1 0).2.1,
          b := (pointColor 2 2 [] 1 0).2.2 }) ∧
    (¬ (0 : ℚ) < probeData (0 * 2 + 1) →
      (fillPointCloudPoints probeOps 0 2 3 2 2 probeData [])[0 * 2 + 1]? = some
        { x := none, y := none, z := none,
          r := (pointColor 2 2 [] 1 0).1,
          g := (pointColor 2 2 [] 1 0).2.1,
          b := (pointColor 2 2 [] 1 0).2.2 } ∧
      fillPointCloudDense 0 2 2 probeData = false)) :=
  ⟨⟨by decide, by decide⟩,
    pointCloud_pixel_conversion probeOps 0 3 2 2 probeData [] 1 0 (by decide) (by decide)⟩

/-- C4: `FillPointCloudHelper` always pushes exactly `W·H` points, in
row-major order — the point for pixel `(i, j)` (built by `mkPcPoint` on
the depth sample at flat index `j·W + i`) sits at output position
`j·W + i`, independent of the cutoff. -/
theorem pointCloud_length_rowMajor (ops : TrigOps) (cutoff hfov : ℚ) (W H : ℕ)
    (data : ℕ → ℚ) (img : List ℕ) :
    (fillPointCloudPoints ops cutoff W hfov H W data img).length = W * H ∧
    ∀ i j, i < W → j < H →
      (fillPointCloudPoints ops cutoff W hfov H W data img)[j * W + i]? =
        some (mkPcPoint ops cutoff H W (focalLength ops W hfov) img
          (data (j * W + i)) i j) := by
  constructor
  · have h := length_gridList H W (fun j i =>
      mkPcPoint ops cutoff H W (focalLength ops W hfov) img (data (j * W + i)) i j)
    rw [Nat.mul_comm] at h
    exact h
  · intro i j hi hj
    exact getElem?_gridList _ hj hi

/-- Witness for C4 at `W = 2`, `H = 3`, `i = 0`, `j = 2`. -/
theorem pointCloud_length_rowMajor_witness :
    (fillPointCloudPoints probeOps 0 2 3 3 2 probeData []).length = 2 * 3 ∧
    ((0 : ℕ) < 2 ∧ (2 : ℕ) < 3 ∧
      (fillPointCloudPoints probeOps 0 2 3 3 2 probeData [])[2 * 2 + 0]? =
        some (mkPcPoint probeOps 0 3 2 (focalLength probeOps 2 3) []
          (probeData (2 * 2 + 0)) 0 2)) :=
  ⟨(pointCloud_length_rowMajor probeOps 0 3 2 3 probeData []).1,
    by decide, by decide,
    (pointCloud_length_rowMajor probeOps 0 3 2 3 probeData []).2 0 2
      (by decide) (by decide)⟩

/-- C6: the color of the point at output position `j·W + i`: with a color
buffer of exactly `H·W·3` bytes the channel bytes at offsets
`i·3 + j·W·3 (+1, +2)` are used; with exactly `H·W` bytes the single byte
at `i + j·W` is replicated; any other size yields black without error. -/
theorem pointCloud_pixel_color (ops : TrigOps) (cutoff hfov : ℚ) (W H : ℕ)
    (data : ℕ → ℚ) (img : List ℕ) (i j : ℕ) (hi : i < W) (hj : j < H) :
    (img.length = H * W * 3 →
      ((fillPointCloudPoints ops cutoff W hfov H W data img)[j * W + i]?).map
          (fun p => (p.r, p.g, p.b)) =
        some (img.getD (i * 3 + j * W * 3 + 0) 0,
              img.getD (i * 3 + j * W * 3 + 1) 0,
              img.getD (i * 3 + j * W * 3 + 2) 0)) ∧
    (img.length = H * W →
      ((fillPointCloudPoints ops cutoff W hfov H W data img)[j * W + i]?).map
          (fun p => (p.r, p.g, p.b)) =
        some (img.getD (i + j * W) 0, img.getD (i + j * W) 0,
              img.getD (i + j * W) 0)) ∧
    (img.length ≠ H * W * 3 → img.length ≠ H * W →
      ((fillPointCloudPoints ops cutoff W hfov H W data img)[j * W + i]?).map
          (fun p => (p.r, p.g, p.b)) = some (0, 0, 0)) := by
  have hpts : (fillPointCloudPoints ops cutoff W hfov H W data img)[j * W + i]? =
      some (mkPcPoint ops cutoff H W (focalLength ops W hfov) img
        (data (j * W + i)) i j) :=
    getElem?_gridList _ hj hi
  have hWpos : 0 < W := by omega
  have hHpos : 0 < H := by omega
  have hHW : 0 < H * W := Nat.mul_pos hHpos hWpos
  refine ⟨?_, ?_, ?_⟩
  · intro h
    rw [hpts]
    simp [mkPcPoint, pointColor, h]
  · intro h
    have hne : img.length ≠ H * W * 3 := by
      intro h3
      omega
    rw [hpts]
    simp [mkPcPoint, pointColor, hne, h]
    intro h3
    exact absurd h3 (by omega)
  · intro h1 h2
    rw [hpts]
    simp [mkPcPoint, pointColor, h1, h2]

/-- Witness for C6 at `W = 2`, `H = 1` with a 6-byte color buffer. -/
theorem pointCloud_pixel_color_witness :
    ((1 : ℕ) < 2 ∧ (0 : ℕ) < 1) ∧
    (([10, 20, 30, 40, 50, 60] : List ℕ).length = 1 * 2 * 3 →
      ((fillPointCloudPoints probeOps 0 2 3 1 2 probeData
          [10, 20, 30, 40, 50, 60])[0 * 2 + 1]?).map (fun p => (p.r, p.g, p.b)) =
        some (([10, 20, 30, 40, 50, 60] : List ℕ).getD (1 * 3 + 0 * 2 * 3 + 0) 0,
              ([10, 20, 30, 40, 50, 60] : List ℕ).getD (1 * 3 + 0 * 2 * 3 + 1) 0,
              ([10, 20, 30, 40, 50, 60] : List ℕ).getD (1 * 3 + 0 * 2 * 3 + 2) 0)) :=
  ⟨⟨by decide, by decide⟩,
    (pointCloud_pixel_color probeOps 0 3 2 1 probeData [10, 20, 30, 40, 50, 60]
      1 0 (by decide) (by decide)).1⟩

/-- C7: `FillDepthImageHelper` writes to output cell `i + j·W` the depth
sample unchanged when it exceeds the cutoff strictly, NaN otherwise; the
output is a `W×H` single-channel 32-bit-float buffer ("32FC1" encoding,
`W·H·sizeof(float)` bytes, row stride `sizeof(float)·W`) and in the
statement trace every metadata assignment precedes every buffer write. -/
theorem depthImage_conversion (m : ImageMsg) (cutoff : ℚ) (W H : ℕ)
    (src : ℕ → ℚ) (i j : ℕ) (hi : i < W) (hj : j < H) :
    (fillDepthImageHelper m cutoff H W src).encoding = "32FC1" ∧
    (fillDepthImageHelper m cutoff H W src).height = H ∧
    (fillDepthImageHelper m cutoff H W src).width = W ∧
    (fillDepthImageHelper m cutoff H W src).step = sizeofFloat * W ∧
    (fillDepthImageHelper m cutoff H W src).dataBytes = H * W * sizeofFloat ∧
    (fillDepthImageHelper m cutoff H W src).is_bigendian = 0 ∧
    (fillDepthImageHelper m cutoff H W src).cells (i + j * W) =
      (if cutoff < src (j * W + i) then some (src (j * W + i)) else none) ∧
    fillDepthImageTrace cutoff H W src =
      depthImageMetaTrace H W ++ depthImageWriteTrace cutoff H W src ∧
    (∀ e ∈ depthImageMetaTrace H W, e.isWrite = false) ∧
    (∀ e ∈ depthImageWriteTrace cutoff H W src, e.isWrite = true) := by
  have hwrites : ∀ e ∈ depthImageWriteTrace cutoff H W src, e.isWrite = true := by
    intro e he
    rw [depthImageWriteTrace] at he
    simp only [List.mem_flatMap, List.mem_map, List.mem_range] at he
    obtain ⟨a, _, b, _, rfl⟩ := he
    rfl
  have hsplit : fillDepthImageHelper m cutoff H W src =
      (depthImageWriteTrace cutoff H W src).foldl applyImgEvent
        ((depthImageMetaTrace H W).foldl applyImgEvent m) := by
    rw [fillDepthImageHelper, fillDepthImageTrace, List.foldl_append]
  have hmeta := foldl_writes_meta (depthImageWriteTrace cutoff H W src)
      ((depthImageMetaTrace H W).foldl applyImgEvent m) hwrites
  obtain ⟨he, hh, hw, hs, hd, hb⟩ := hmeta
  rw [hsplit]
  refine ⟨by rw [he]; rfl, by rw [hh]; rfl, by rw [hw]; rfl, by rw [hs]; rfl,
    by rw [hd]; rfl, by rw [hb]; rfl, ?_, rfl, ?_, hwrites⟩
  · rw [depthImageWriteTrace]
    exact grid_fold_cells_hit
      (fun j i => if cutoff < src (j * W + i) then some (src (j * W + i)) else none)
      H W i j _ hi hj
  · intro e he
    rw [depthImageMetaTrace] at he
    simp only [List.mem_cons, List.not_mem_nil, or_false] at he
    rcases he with rfl | rfl | rfl | rfl | rfl | rfl <;> rfl

/-- Concrete image-message start state used by the C7 witness. -/
def probeImageMsg : ImageMsg :=
  { encoding := "", height := 0, width := 0, step := 0, dataBytes := 0,
    cells := fun _ => none, is_bigendian := 1 }

/-- Witness for C7 at `W = 2`, `H = 2`, `i = 1`, `j = 1`, zero cutoff. -/
theorem depthImage_conversion_witness :
    ((1 : ℕ) < 2 ∧ (1 : ℕ) < 2) ∧
    ((fillDepthImageHelper probeImageMsg 0 2 2 probeData).encoding = "32FC1" ∧
     (fillDepthImageHelper probeImageMsg 0 2 2 probeData).height = 2 ∧
     (fillDepthImageHelper probeImageMsg 0 2 2 probeData).width = 2 ∧
     (fillDepthImageHelper probeImageMsg 0 2 2 probeData).step = sizeofFloat * 2 ∧
     (fillDepthImageHelper probeImageMsg 0 2 2 probeData).dataBytes = 2 * 2 * sizeofFloat ∧
     (fillDepthImageHelper probeImageMsg 0 2 2 probeData).is_bigendian = 0 ∧
     (fillDepthImageHelper probeImageMsg 0 2 2 probeData).cells (1 + 1 * 2) =
       (if (0 : ℚ) < probeData (1 * 2 + 1) then some (probeData (1 * 2 + 1)) else none) ∧
     fillDepthImageTrace 0 2 2 probeData =
       depthImageMetaTrace 2 2 ++ depthImageWriteTrace 0 2 2 probeData ∧
     (∀ e ∈ depthImageMetaTrace 2 2, e.isWrite = false) ∧
     (∀ e ∈ depthImageWriteTrace 0 2 2 probeData, e.isWrite = true)) :=
  ⟨⟨by decide, by decide⟩,
    depthImage_conversion probeImageMsg 0 2 2 probeData 1 1 (by decide) (by decide)⟩

/-- C10: `OnNewRGBPointCloud` appends points with `i` (columns) as the
OUTER loop and `j` (rows) inner — pixel `(i, j)` lands at output position
`i·H + j` and reads the four floats at offsets `4·(j·W + i) .. +3` — while
`FillPointCloudHelper` enumerates row-major: pixel `(i, j) = (1, 0)`
(flat buffer index `0·W + 1 = 1`) sits at position `1·H + 0 = H` in the
former but at position `1` in the latter, and `H ≠ 1` when `H > 1`. -/
theorem rgbPointCloud_column_major (W H : ℕ) (pcd : ℕ → ℚ)
    (hW : 1 < W) (hH : 1 < H) :
    (rgbPointCloudPoints W H pcd).length = W * H ∧
    (∀ i j, i < W → j < H →
      (rgbPointCloudPoints W H pcd)[i * H + j]? =
        some (mkRGBPoint pcd (j * W + i))) ∧
    (rgbPointCloudPoints W H pcd)[1 * H + 0]? = some (mkRGBPoint pcd (0 * W + 1)) ∧
    (∀ ops cutoff hfov data img,
      (fillPointCloudPoints ops cutoff W hfov H W data img)[1]? =
        some (mkPcPoint ops cutoff H W (focalLength ops W hfov) img
          (data (0 * W + 1)) 1 0)) ∧
    1 * H + 0 ≠ 1 := by
  refine ⟨length_gridList W H _, ?_, ?_, ?_, by omega⟩
  · intro i j hi hj
    exact getElem?_gridList _ hi hj
  · exact getElem?_gridList _ hW (by omega)
  · intro ops cutoff hfov data img
    have h := getElem?_gridList
      (f := fun j i => mkPcPoint ops cutoff H W (focalLength ops W hfov) img
        (data (j * W + i)) i j) (j := 0) (i := 1) (show 0 < H by omega) hW
    simpa using h

/-- Witness for C10 at `W = H = 2`. -/
theorem rgbPointCloud_column_major_witness :
    ((1 : ℕ) < 2 ∧ (1 : ℕ) < 2) ∧
    ((rgbPointCloudPoints 2 2 probeData).length = 2 * 2 ∧
     (∀ i j, i < 2 → j < 2 →
       (rgbPointCloudPoints 2 2 probeData)[i * 2 + j]? =
         some (mkRGBPoint probeData (j * 2 + i))) ∧
     (rgbPointCloudPoints 2 2 probeData)[1 * 2 + 0]? =
       some (mkRGBPoint probeData (0 * 2 + 1)) ∧
     (∀ ops cutoff hfov data img,
       (fillPointCloudPoints ops cutoff 2 hfov 2 2 data img)[1]? =
         some (mkPcPoint ops cutoff 2 2 (focalLength ops 2 hfov) img
           (data (0 * 2 + 1)) 1 0)) ∧
     1 * 2 + 0 ≠ 1) :=
  ⟨⟨by decide, by decide⟩,
    rgbPointCloud_column_major 2 2 probeData (by decide) (by decide)⟩

/-- State with one point-cloud and one depth-image subscriber, sensor
active: the input refuting C2 as stated. -/
def stateC2 : CamState :=
  { initState with
    point_cloud_connect_count_ := 1
    image_connect_count_ := 1
    depth_image_connect_count_ := 1
    active := true }

/-- C2 counterexample: a point-cloud unsubscribe that brings the
point-cloud counter to zero requests sensor deactivation even though the
depth-image channel still has a positive counter — refuting the claim
that deactivation is requested only when no other channel is interested. -/
theorem pointCloudDisconnect_ignores_other_channels :
    (PointCloudDisconnect stateC2).1.point_cloud_connect_count_ = 0 ∧
    0 < (PointCloudDisconnect stateC2).1.depth_image_connect_count_ ∧
    (PointCloudDisconnect stateC2).2 = [SensorReq.deactivate] := by decide

/-- C2 amended: `PointCloudDisconnect` requests deactivation exactly when
it brings the point-cloud counter to zero or below, without consulting
any other channel's counter; `DepthImageDisconnect` never issues any
sensor request. -/
theorem disconnect_deactivation_policy (s : CamState) :
    ((PointCloudDisconnect s).2 = [SensorReq.deactivate] ↔
      s.point_cloud_connect_count_ ≤ 1) ∧
    ((PointCloudDisconnect s).1.point_cloud_connect_count_ =
      s.point_cloud_connect_count_ - 1) ∧
    (DepthImageDisconnect s).2 = [] := by
  refine ⟨?_, ?_, rfl⟩
  · simp only [PointCloudDisconnect]
    split_ifs with h
    · simp
      omega
    · simp
      omega
  · simp only [PointCloudDisconnect]
    split_ifs <;> rfl

/-- C3, evaluating the code at the spec's forbidden input: with the
sensor inactive and every subscriber counter zero, `OnNewDepthFrame`
nevertheless requests sensor activation, because the source condition is
`point_cloud_connect_count_ > 0 || depth_image_connect_count_ <= 0`. -/
theorem onNewDepthFrame_spurious_activation :
    initState.active = false ∧
    initState.point_cloud_connect_count_ = 0 ∧
    initState.depth_image_connect_count_ = 0 ∧
    initState.image_connect_count_ = 0 ∧
    (OnNewDepthFrame initState).requests = [SensorReq.activate] := by decide

/-- C5: from the inactive all-zero state, a point-cloud subscribe issues
the activation request at once (before any conversion — connect handlers
perform none), the first point-cloud publish happens at the frame
callback that follows activation, and the unsubscribe that returns the
counter to zero (no other channel subscribed) requests deactivation. -/
theorem pointCloud_subscribe_lifecycle :
    (PointCloudConnect initState).2 = [SensorReq.activate] ∧
    (PointCloudConnect initState).1.active = true ∧
    (OnNewDepthFrame (PointCloudConnect initState).1).pubs = [Pub.pointCloud] ∧
    (OnNewDepthFrame (PointCloudConnect initState).1).requests = [] ∧
    (PointCloudDisconnect
        (OnNewDepthFrame (PointCloudConnect initState).1).state).1.point_cloud_connect_count_
      = 0 ∧
    (PointCloudDisconnect
        (OnNewDepthFrame (PointCloudConnect initState).1).state).1.depth_image_connect_count_
      = 0 ∧
    (PointCloudDisconnect
        (OnNewDepthFrame (PointCloudConnect initState).1).state).2
      = [SensorReq.deactivate] := by decide

/-- C9 counterexample: one unmatched point-cloud unsubscribe drives the
point-cloud counter to `-1`, refuting the claim that every counter stays
non-negative for every subscribe/unsubscribe sequence. -/
theorem counter_goes_negative :
    (runSub initState [SubEvent.pcUnsub]).point_cloud_connect_count_ = -1 := by decide

/-- C9 amended: subscribes increment and unsubscribes decrement each
channel's counter with no lower clamp, so starting from the all-zero
state the counters stay non-negative at every point of a run exactly when
every prefix of the run has at least as many subscribes as unsubscribes
per channel (`l.take n` for `n ≥ l.length` is `l` itself, so the
quantifier over `n` covers every prefix and the whole run). -/
theorem counters_nonneg_iff_balanced (l : List SubEvent) :
    (∀ n,
      0 ≤ (runSub initState (l.take n)).point_cloud_connect_count_ ∧
      0 ≤ (runSub initState (l.take n)).depth_image_connect_count_ ∧
      0 ≤ (runSub initState (l.take n)).depth_info_connect_count_) ↔
      allPrefixesOk l = true := by
  constructor
  · intro hnn
    rw [allPrefixesOk, List.all_eq_true]
    intro n hn
    obtain ⟨h1, h2, h3⟩ := hnn n
    obtain ⟨e1, e2, e3⟩ := runSub_counts (l.take n) initState
    rw [e1] at h1
    rw [e2] at h2
    rw [e3] at h3
    simp only [initState] at h1 h2 h3
    rw [countersOk, Bool.and_eq_true, Bool.and_eq_true, decide_eq_true_eq,
      decide_eq_true_eq, decide_eq_true_eq]
    refine ⟨⟨?_, ?_⟩, ?_⟩ <;> omega
  · intro h n
    have hok : countersOk (l.take n) = true := by
      rw [allPrefixesOk, List.all_eq_true] at h
      rcases le_or_lt n l.length with hn | hn
      · exact h n (List.mem_range.mpr (by omega))
      · have heq : l.take n = l.take l.length := by
          rw [List.take_length, List.take_of_length_le (by omega)]
        rw [heq]
        exact h l.length (List.mem_range.mpr (by omega))
    rw [countersOk, Bool.and_eq_true, Bool.and_eq_true] at hok
    obtain ⟨⟨h1, h2⟩, h3⟩ := hok
    rw [decide_eq_true_eq] at h1 h2 h3
    obtain ⟨e1, e2, e3⟩ := runSub_counts (l.take n) initState
    rw [e1, e2, e3]
    simp only [initState]
    omega

/-- C8: the depth camera-info message is published iff the depth-info
counter is positive and at least one update period of simulation time has
elapsed since the last depth camera-info publish; on publish the
last-publish time advances to the current time, otherwise the state is
unchanged; the generic camera-info delegation is not gated by this rate
limit. -/
theorem publishCameraInfo_policy (s : CameraInfoState) (cur : ℚ) :
    ((PublishCameraInfo s cur).depthPublished = true ↔
      0 < s.depth_info_connect_count_ ∧
        s.update_period_ ≤ cur - s.last_depth_image_camera_info_update_time_) ∧
    ((PublishCameraInfo s cur).depthPublished = true →
      (PublishCameraInfo s cur).state.last_depth_image_camera_info_update_time_ = cur) ∧
    ((PublishCameraInfo s cur).depthPublished = false →
      (PublishCameraInfo s cur).state = s) ∧
    (PublishCameraInfo s cur).genericPublished = true := by
  simp only [PublishCameraInfo]
  split_ifs with h1 h2 <;> simp_all

/-- Witness for C8: one subscriber, period 1, last publish at 0, current
time 5 — the depth info is published and the timestamp advances. -/
theorem publishCameraInfo_policy_witness :
    ((PublishCameraInfo ⟨1, 0, 1⟩ 5).depthPublished = true ↔
      0 < (⟨1, 0, 1⟩ : CameraInfoState).depth_info_connect_count_ ∧
        (⟨1, 0, 1⟩ : CameraInfoState).update_period_ ≤
          5 - (⟨1, 0, 1⟩ : CameraInfoState).last_depth_image_camera_info_update_time_) ∧
    ((PublishCameraInfo ⟨1, 0, 1⟩ 5).depthPublished = true →
      (PublishCameraInfo ⟨1, 0, 1⟩ 5).state.last_depth_image_camera_info_update_time_ = 5) ∧
    ((PublishCameraInfo ⟨1, 0, 1⟩ 5).depthPublished = false →
      (PublishCameraInfo ⟨1, 0, 1⟩ 5).state = ⟨1, 0, 1⟩) ∧
    (PublishCameraInfo ⟨1, 0, 1⟩ 5).genericPublished = true :=
  publishCameraInfo_policy ⟨1, 0, 1⟩ 5

end GazeboRosDepthCamera
